import Mathlib

/-!
Shallow embedding of the HRMS frontend session-management subsystem.

The definitions below translate the authentication code of
`src/hr_frontend/src/contexts/AuthContext.jsx` (which contains two pasted
variants of the provider; we call them `v1`, lines 1-258, and `v2`, lines
259-475), the standalone axios module `src/unnamed/part_000+` (`axios.js`),
and `src/hr_frontend/src/contexts/NotificationContext.jsx`.

Modelling conventions:
* Nullable JS strings (tokens, headers, storage slots) are `Option String`;
  `none` stands for both `null` and `undefined`.  JS truthiness for such a
  value is `truthy` (absent or empty string is falsy).  JS string coercion
  of `undefined` (template literals, `localStorage.setItem`) yields the
  string "undefined", modelled by `jsString`.
* The single-threaded event loop is modelled by explicit state passing: an
  async operation is a function `St → result × St`.
* `axios` with the registered response interceptor is `axiosCall`: it sends
  the request to a `Backend` (a pure function from the full request config
  to a response) and, on a rejected response, runs the error branch of the
  response interceptor of the chosen variant.  Because the interceptor can
  re-enter axios (retry of the original request, and the refresh POST made
  with the same global axios instance), `axiosCall` is fuel-bounded; `none`
  as a result means the simulated execution did not complete within the
  fuel (in the source this corresponds to a still-pending promise chain).
* The `Trace` component counts network calls and `localStorage` reads; it
  is pure instrumentation, separate from the program state `ProgState`.
-/

namespace HRMS

/-- JS truthiness of a nullable string: `null`/`undefined` and the empty
string are falsy, every other string is truthy. -/
def truthy : Option String → Bool
  | none => false
  | some s => !s.isEmpty

/-- JS string coercion as performed by template literals and
`localStorage.setItem`: `undefined` becomes the string "undefined". -/
def jsString : Option String → String
  | none => "undefined"
  | some s => s

/-- Whether `pat` occurs at the head of `s`. -/
def charsLeadWith : List Char → List Char → Bool
  | [], _ => true
  | _ :: _, [] => false
  | a :: as, b :: bs => a == b && charsLeadWith as bs

/-- Whether `pat` occurs anywhere in `s`. -/
def charsInclude (pat : List Char) : List Char → Bool
  | [] => charsLeadWith pat []
  | c :: rest => charsLeadWith pat (c :: rest) || charsInclude pat rest

/-- JS `String.prototype.includes`. -/
def includesSub (s pat : String) : Bool := charsInclude pat.data s.data

/-- The user profile object (only the fields the session logic touches). -/
structure User where
  id : Nat
  permissions : List String := []
deriving Repr, DecidableEq

/-- Model of `localStorage`: the two durable keys `token` and `refresh_token`
(AuthContext.jsx lines 37-38, 289-290); `none` means the key is absent. -/
structure Storage where
  token : Option String
  refresh_token : Option String
deriving Repr, DecidableEq

/-- In-memory program state: React state (`user`, `loading`, `token`,
`refreshToken`) plus `axios.defaults.headers.common.Authorization`
(`authHeader`) and the durable `localStorage` mirror. -/
structure ProgState where
  storage : Storage
  user : Option User
  loading : Bool
  token : Option String
  refreshToken : Option String
  authHeader : Option String
deriving Repr, DecidableEq

/-- Instrumentation: counts of network sends (total, to the refresh
endpoint, GETs of the profile endpoint, sends of configs already marked
`_retry`) and of `localStorage.getItem` calls. -/
structure Trace where
  netCalls : Nat := 0
  refreshCalls : Nat := 0
  profileGets : Nat := 0
  retriedCalls : Nat := 0
  storageReads : Nat := 0
deriving Repr, DecidableEq

/-- Full simulation state: program state plus instrumentation. -/
structure St where
  prog : ProgState
  tr : Trace
deriving Repr, DecidableEq

/-- An axios request config: method, url, the `_retry` mark set by the
response interceptors, the `Authorization` header, and the body. -/
structure Config where
  method : String
  url : String
  retry : Bool
  auth : Option String
  body : Option String := none
deriving Repr, DecidableEq

/-- A 2xx response body, as the union of the optional fields the session
code destructures (`access_token`, `refresh_token`, `user`). -/
structure RespData where
  access_token : Option String := none
  refresh_token : Option String := none
  user : Option User := none
deriving Repr, DecidableEq

/-- Outcome of one network exchange: a fulfilled 2xx response, or a
rejection carrying `error.response?.status` (`none` = network error, no
response) and `error.response?.data?.error`. -/
inductive Resp where
  | ok (data : RespData)
  | err (status : Option Nat) (errorMsg : Option String)
deriving Repr, DecidableEq

/-- Whether a response is a rejection. -/
def Resp.isErr : Resp → Bool
  | .ok _ => false
  | .err _ _ => true

/-- The backend collaborator: a pure function from request config to
response (the spec treats the REST backend as fixed and external). -/
abbrev Backend := Config → Resp

/-- An axios-like callable: request config to (possibly not completed)
response, threading the simulation state. -/
abbrev Api := Config → St → Option Resp × St

/-- The two pasted variants of the AuthContext provider. -/
inductive Variant | v1 | v2
deriving Repr, DecidableEq

def refreshUrl : String := "/auth/token/refresh"
def profileUrl : String := "/auth/profile"
def loginUrl : String := "/auth/login"
def logoutUrl : String := "/auth/logout"

/-- Count one `localStorage.getItem`. -/
def bumpRead (st : St) : St :=
  { st with tr := { st.tr with storageReads := st.tr.storageReads + 1 } }

/-- Count one network send of config `cfg`. -/
def countSend (cfg : Config) (tr : Trace) : Trace :=
  { tr with
    netCalls := tr.netCalls + 1
    refreshCalls := tr.refreshCalls + (if cfg.url = refreshUrl then 1 else 0)
    profileGets :=
      tr.profileGets + (if cfg.method = "get" && cfg.url = profileUrl then 1 else 0)
    retriedCalls := tr.retriedCalls + (if cfg.retry then 1 else 0) }

/-- Setter `setLoading`. -/
def setLoading (b : Bool) (st : St) : St :=
  { st with prog := { st.prog with loading := b } }

/-- Setter `setUser`. -/
def setUser (u : Option User) (st : St) : St :=
  { st with prog := { st.prog with user := u } }

/-- Write `axios.defaults.headers.common.Authorization`. -/
def setDefaultAuth (h : Option String) (st : St) : St :=
  { st with prog := { st.prog with authHeader := h } }

/-- Operation `handleLogout` (AuthContext.jsx lines 176-183 and 447-457): clear both
tokens and the user from memory, remove both storage keys, detach the
default bearer header (v1 does the detach through its token-sync effect at
lines 43-58, v2 explicitly at line 453). -/
def handleLogout (st : St) : St :=
  { st with prog := { st.prog with
      token := none, refreshToken := none, user := none,
      storage := { token := none, refresh_token := none },
      authHeader := none } }

/-- Variant-1 `setToken` together with its storage/header synchronisation effect
(AuthContext.jsx lines 43-50): a truthy token is written to storage and to
the default header, a falsy one removes both. -/
def v1SetToken (tok : Option String) (st : St) : St :=
  if truthy tok then
    { st with prog := { st.prog with
        token := tok
        storage := { st.prog.storage with token := tok }
        authHeader := some ("Bearer " ++ jsString tok) } }
  else
    { st with prog := { st.prog with
        token := tok
        storage := { st.prog.storage with token := none }
        authHeader := none } }

/-- Variant-1 `setRefreshToken` together with its storage synchronisation effect
(AuthContext.jsx lines 52-57). -/
def v1SetRefreshToken (rt : Option String) (st : St) : St :=
  if truthy rt then
    { st with prog := { st.prog with
        refreshToken := rt
        storage := { st.prog.storage with refresh_token := rt } } }
  else
    { st with prog := { st.prog with
        refreshToken := rt
        storage := { st.prog.storage with refresh_token := none } } }

/-- Config of the refresh POST (`axios.post('/auth/token/refresh', {},
{headers: {Authorization: Bearer <refresh token>}})`). -/
def refreshCfg (rt : String) : Config :=
  { method := "post", url := refreshUrl, retry := false,
    auth := some ("Bearer " ++ rt) }

/-- Config of a profile GET carrying the given Authorization header. -/
def profileCfg (auth : Option String) : Config :=
  { method := "get", url := profileUrl, retry := false, auth := auth }

/-- Config of the login POST. -/
def loginCfg (creds : String) (auth : Option String) : Config :=
  { method := "post", url := loginUrl, retry := false, auth := auth,
    body := some creds }

/-- Operation `refreshAccessToken` (AuthContext.jsx lines 297-325, v2): read the
refresh token from durable storage; if falsy return null at once with no
network call; otherwise POST the refresh endpoint (through the same global
axios, passed here as `api`).  On a fulfilled response, destructure the
body, write the access token through to storage/state/default header
(`setItem` coerces `undefined` to "undefined"), rotate the refresh token
only if the body carried a truthy one, and return the access token.  On a
rejected refresh request, return null having mutated nothing. -/
def refreshAccessToken (api : Api) (st : St) : Option String × St :=
  let st := bumpRead st
  let currentRefreshToken := st.prog.storage.refresh_token
  if !truthy currentRefreshToken then (none, st)
  else
    match api (refreshCfg (jsString currentRefreshToken)) st with
    | (none, st) => (none, st)
    | (some (.err _ _), st) => (none, st)
    | (some (.ok d), st) =>
      let st := { st with prog := { st.prog with
          storage := { st.prog.storage with token := some (jsString d.access_token) },
          token := d.access_token,
          authHeader := some ("Bearer " ++ jsString d.access_token) } }
      let st :=
        if truthy d.refresh_token then
          { st with prog := { st.prog with
              storage := { st.prog.storage with refresh_token := d.refresh_token },
              refreshToken := d.refresh_token } }
        else st
      (d.access_token, st)

/-- Error branch of the response interceptor.

v1 (AuthContext.jsx lines 62-117): on a 401 of a not-yet-retried, non-login
request, mark it retried, read the refresh token from storage (logout and
reject if absent), POST the refresh endpoint through the same global axios;
on refresh success store the new tokens, update the headers and re-issue
the original request; on refresh failure `handleLogout()` and reject with
the refresh error.

v2 (AuthContext.jsx lines 335-357): reject at once when the config is
already marked `_retry`; on a 401 of a non-login request mark it retried
and call `refreshAccessToken`; if that yields a token re-issue the original
request with it, otherwise reject with the original error. -/
def interceptErr (api : Api) (v : Variant) (cfg : Config) (status : Option Nat)
    (emsg : Option String) (st : St) : Option Resp × St :=
  match v with
  | .v2 =>
    if cfg.retry then (some (.err status emsg), st)
    else if status == some 401 && !includesSub cfg.url loginUrl then
      match refreshAccessToken api st with
      | (some t, st) =>
        api { cfg with retry := true, auth := some ("Bearer " ++ t) } st
      | (none, st) => (some (.err status emsg), st)
    else (some (.err status emsg), st)
  | .v1 =>
    if status == some 401 && !cfg.retry && !includesSub cfg.url loginUrl then
      let cfg := { cfg with retry := true }
      let st := bumpRead st
      let srt := st.prog.storage.refresh_token
      if !truthy srt then
        (some (.err none (some "No refresh token available")), handleLogout st)
      else
        match api (refreshCfg (jsString srt)) st with
        | (none, st) => (none, st)
        | (some (.err s2 m2), st) => (some (.err s2 m2), handleLogout st)
        | (some (.ok d), st) =>
          let st := v1SetToken d.access_token st
          let st :=
            if truthy d.refresh_token then v1SetRefreshToken d.refresh_token st
            else st
          let st := setDefaultAuth (some ("Bearer " ++ jsString d.access_token)) st
          api { cfg with auth := some ("Bearer " ++ jsString d.access_token) } st
    else (some (.err status emsg), st)

/-- One axios request through the response interceptor of variant `v`
against backend `B`, with `fuel` bounding the depth of interceptor
re-entry (retries and nested refresh calls).  A fulfilled response passes
through unchanged; a rejection is handed to `interceptErr`. -/
def axiosCall (B : Backend) (v : Variant) : Nat → Config → St → Option Resp × St
  | 0, _, st => (none, st)
  | fuel + 1, cfg, st =>
    let st := { st with tr := countSend cfg st.tr }
    match B cfg with
    | .ok d => (some (.ok d), st)
    | .err status emsg =>
      interceptErr (fun c s => axiosCall B v fuel c s) v cfg status emsg st
termination_by structural fuel => fuel

/-- Discriminated operation result `{success, user?, error?}` returned by
`login`, `updateProfile` and the other thin mutations. -/
structure JsResult where
  success : Bool
  user : Option User := none
  error : Option String := none
deriving Repr, DecidableEq

/-- The provider state right after mount (`useState` initialisers at
AuthContext.jsx lines 286-290 read both storage keys; the header effect at
lines 330-333 attaches the default bearer header when the token state is
truthy).  `user` starts null and `loading` starts true. -/
def initialProg (sto : Storage) : ProgState :=
  { storage := sto
    user := none
    loading := true
    token := sto.token
    refreshToken := sto.refresh_token
    authHeader :=
      if truthy sto.token then some ("Bearer " ++ jsString sto.token) else none }

/-- Operation `checkAuth` (AuthContext.jsx lines 365-412, v2), the `initialize()`
operation: read both stored tokens; with no truthy stored token just end
loading (guest).  Otherwise GET the profile (through the interceptor-laden
axios passed as `api`); on success set the user.  On a 401 with a truthy
stored refresh token run one rescue: `refreshAccessToken`, then one retried
profile GET carrying the new token; any failure along the rescue, or a
non-401/`no refresh token` failure, performs `handleLogout`.  `loading`
ends false on every completed path. -/
def checkAuth (api : Api) (refreshFn : St → Option String × St) (st : St) : St :=
  let st := bumpRead (bumpRead st)
  let storedToken := st.prog.storage.token
  let storedRefreshToken := st.prog.storage.refresh_token
  if !truthy storedToken then setLoading false st
  else
    match api (profileCfg st.prog.authHeader) st with
    | (some (.ok d), st) => setLoading false (setUser d.user st)
    | (none, st) => st
    | (some (.err status _), st) =>
      if status == some 401 && truthy storedRefreshToken then
        match refreshFn st with
        | (some newTok, st) =>
          match api { method := "get", url := profileUrl, retry := false,
                      auth := some ("Bearer " ++ newTok) } st with
          | (some (.ok d), st) => setLoading false (setUser d.user st)
          | (some (.err _ _), st) => setLoading false (handleLogout st)
          | (none, st) => st
        | (none, st) => setLoading false (handleLogout st)
      else setLoading false (handleLogout st)

/-- Operation `checkAuth` (AuthContext.jsx lines 123-141, v1): with no truthy token
state end loading; otherwise GET the profile and set the user on success;
the catch branch only logs (the response interceptor is what performs the
silent refresh), and `finally` ends loading. -/
def checkAuthV1 (api : Api) (st : St) : St :=
  if !truthy st.prog.token then setLoading false st
  else
    match api (profileCfg st.prog.authHeader) st with
    | (some (.ok d), st) => setLoading false (setUser d.user st)
    | (some (.err _ _), st) => setLoading false st
    | (none, st) => st

/-- Operation `login` (AuthContext.jsx lines 417-435, v2): POST the credentials; on
success write both tokens to storage (with JS string coercion) and to
state, set the user (the header-sync effect then attaches the bearer
header for a truthy token) and return `{success: true, user}`.  On failure
return `{success: false, error}` where the message is
`error.response?.data?.error || 'Login failed'`; nothing is mutated. -/
def login (api : Api) (creds : String) (st : St) : JsResult × St :=
  match api (loginCfg creds st.prog.authHeader) st with
  | (none, st) => ({ success := false }, st)
  | (some (.ok d), st) =>
    let st := { st with prog := { st.prog with
        storage := { token := some (jsString d.access_token),
                     refresh_token := some (jsString d.refresh_token) }
        token := d.access_token
        refreshToken := d.refresh_token
        user := d.user } }
    let st :=
      if truthy d.access_token then
        setDefaultAuth (some ("Bearer " ++ jsString d.access_token)) st
      else st
    ({ success := true, user := d.user }, st)
  | (some (.err _ m), st) =>
    ({ success := false,
       error := some (if truthy m then jsString m else "Login failed") }, st)

/-- Operation `logout` (AuthContext.jsx lines 437-445): if the token state is truthy,
best-effort POST `/auth/logout` (errors swallowed); `finally` always runs
`handleLogout`. -/
def logout (api : Api) (st : St) : St :=
  if truthy st.prog.token then
    let r := api { method := "post", url := logoutUrl, retry := false,
                   auth := st.prog.authHeader } st
    handleLogout r.2
  else handleLogout st

/-- Operation `updateProfile` (AuthContext.jsx line 463, v2): PUT the profile data;
on success set the in-memory user from the response and return success; on
failure return the extracted error with no state change. -/
def updateProfile (api : Api) (d : String) (st : St) : JsResult × St :=
  match api { method := "put", url := profileUrl, retry := false,
              auth := st.prog.authHeader, body := some d } st with
  | (none, st) => ({ success := false }, st)
  | (some (.ok r), st) => ({ success := true, user := r.user }, setUser r.user st)
  | (some (.err _ m), st) => ({ success := false, error := m }, st)

/-!  Notification model (`NotificationContext.jsx`). -/

/-- A notification as the unread-counter logic sees it. -/
structure Notif where
  id : Nat
  message : String := ""
  is_read : Bool
deriving Repr, DecidableEq

/-- Notification provider state: the list and the unread counter (a JS
number, so modelled as an integer that could in principle go negative). -/
structure NotifState where
  notifications : List Notif
  unreadCount : Int
deriving Repr, DecidableEq

/-- Operation `fetchNotifications` (NotificationContext.jsx lines 25-39): on a
successful GET replace the list and set the counter to the number of
unread entries; on failure log and change nothing. -/
def fetchNotifications (resp : Option (List Notif)) (s : NotifState) : NotifState :=
  match resp with
  | some l =>
    { notifications := l
      unreadCount := ((l.filter (fun n => !n.is_read)).length : Int) }
  | none => s

/-- The `new_notification` socket handler (NotificationContext.jsx lines
53-61): prepend the notification and increment the counter. -/
def onNewNotification (n : Notif) (s : NotifState) : NotifState :=
  { notifications := n :: s.notifications
    unreadCount := s.unreadCount + 1 }

/-- Operation `markAsRead` (NotificationContext.jsx lines 82-98): when the PUT
succeeds, mark the matching entry read and decrement the counter clamped
at zero (`Math.max(0, prev - 1)`); when it fails, log and change
nothing. -/
def markAsRead (success : Bool) (notificationId : Nat) (s : NotifState) : NotifState :=
  if success then
    { notifications :=
        s.notifications.map fun n =>
          if n.id = notificationId then { n with is_read := true } else n
      unreadCount := max 0 (s.unreadCount - 1) }
  else s

/-- Operation `markAllAsRead` (NotificationContext.jsx lines 100-110): collect the
unread ids, optimistically mark everything read and zero the counter, then
run `markAsRead` for each collected id (each PUT may succeed or fail). -/
def markAllAsRead (success : Nat → Bool) (s : NotifState) : NotifState :=
  let unreadIds := (s.notifications.filter (fun n => !n.is_read)).map (fun n => n.id)
  let s0 : NotifState :=
    { notifications := s.notifications.map (fun n => { n with is_read := true })
      unreadCount := 0 }
  unreadIds.foldl (fun acc i => markAsRead (success i) i acc) s0

/-!  Concrete scenarios used by the closed theorems and witnesses. -/

/-- A logged-in program state holding access token "A1" and refresh token
"R1" in memory and storage, default header attached. -/
def authedSt : St :=
  { prog := { storage := { token := some "A1", refresh_token := some "R1" }
              user := none
              loading := false
              token := some "A1"
              refreshToken := some "R1"
              authHeader := some "Bearer A1" }
    tr := {} }

/-- The logged-out program state: no user, no tokens, empty storage. -/
def loggedOutProg : ProgState :=
  { storage := { token := none, refresh_token := none }
    user := none
    loading := false
    token := none
    refreshToken := none
    authHeader := none }

/-- A protected request fired while the access token was still "A1". -/
def tasksCfg : Config :=
  { method := "get", url := "/tasks", retry := false, auth := some "Bearer A1" }

/-- A second, independent protected request fired with the same token. -/
def leavesCfg : Config :=
  { method := "get", url := "/leaves", retry := false, auth := some "Bearer A1" }

/-- Backend for the concurrent-401 scenario: access token "A1" is expired
(every protected request carrying it gets 401); the refresh endpoint
accepts "R1" (rotating to "A2"/"R2") and "R2" (rotating to "A3"/"R3");
protected requests carrying "A2" or "A3" succeed. -/
def raceBackend : Backend := fun cfg =>
  if cfg.url = refreshUrl then
    if cfg.auth = some "Bearer R1" then
      .ok { access_token := some "A2", refresh_token := some "R2" }
    else if cfg.auth = some "Bearer R2" then
      .ok { access_token := some "A3", refresh_token := some "R3" }
    else .err (some 401) none
  else if cfg.auth = some "Bearer A1" then .err (some 401) none
  else if cfg.auth = some "Bearer A2" || cfg.auth = some "Bearer A3" then
    .ok { user := some { id := 1 } }
  else .err (some 401) none

/-- Backend whose refresh endpoint always rejects with 401 (a dead refresh
token) and whose protected endpoints reject "A1" with 401. -/
def deadRefreshBackend : Backend := fun cfg =>
  if cfg.url = refreshUrl then .err (some 401) (some "refresh token expired")
  else .err (some 401) none

/-- Backend whose refresh endpoint answers 2xx with an empty JSON body
(no `access_token` field): a malformed refresh response. -/
def malformedRefreshBackend : Backend := fun cfg =>
  if cfg.url = refreshUrl then .ok {} else .err (some 401) none

/-- A post-startup state in which the in-memory `refreshToken` state still
holds "R1" but durable storage has no `refresh_token` key. -/
def memOnlyRefreshSt : St :=
  { prog := { storage := { token := some "A1", refresh_token := none }
              user := none
              loading := false
              token := some "A1"
              refreshToken := some "R1"
              authHeader := some "Bearer A1" }
    tr := {} }

/-!  Theorems. -/

/-- Claim C1. The claim states that two protected requests fired
simultaneously with an expired access token cause exactly one network call
to the refresh endpoint.  Evaluating the embedded interceptors at that
input refutes it: the `_retry` guard is per-request-config and neither
variant shares an in-flight refresh, so each of the two 401s fires its own
refresh network call — two refresh calls in total (each request does
eventually succeed, but each with the token from its own refresh).  This
holds for both observed variants of the interceptor. -/
theorem c1_concurrent_401s_fire_two_refresh_calls :
    (let p1 := axiosCall raceBackend .v2 5 tasksCfg authedSt
     let p2 := axiosCall raceBackend .v2 5 leavesCfg p1.2
     p2.2.tr.refreshCalls = 2 ∧
     p1.1 = some (.ok { user := some { id := 1 } }) ∧
     p2.1 = some (.ok { user := some { id := 1 } })) ∧
    (let q1 := axiosCall raceBackend .v1 5 tasksCfg authedSt
     let q2 := axiosCall raceBackend .v1 5 leavesCfg q1.2
     q2.2.tr.refreshCalls = 2 ∧
     q1.1 = some (.ok { user := some { id := 1 } }) ∧
     q2.1 = some (.ok { user := some { id := 1 } })) := by
  decide

/-- Claim C2. The claim states that a failure of a refresh-endpoint request
never triggers a nested refresh from the response interceptor.  Evaluating
the embedded code refutes it: the guard only excludes `/auth/login` URLs
and already-retried configs, and the refresh POST goes through the same
global axios instance, so a 401 answer to `/auth/token/refresh` re-enters
the refresh branch.  With a dead refresh token a single protected 401
produces five refresh-endpoint calls within the simulated depth of six
(an unbounded nested-refresh loop in the source), in both variants.
(The standalone `api` module in `src/api/axios.js` avoids this by issuing
its refresh POST on the bare, un-intercepted axios instance.) -/
theorem c2_refresh_endpoint_401_triggers_nested_refresh :
    (axiosCall deadRefreshBackend .v2 6 tasksCfg authedSt).2.tr.refreshCalls = 5 ∧
    (axiosCall deadRefreshBackend .v1 6 tasksCfg authedSt).2.tr.refreshCalls = 5 := by
  decide

/-- Claim C3, counterexample. The claim states that every failing execution
of `refreshAccessToken` (including a malformed refresh response) returns
null and performs no mutation.  A 2xx refresh response whose body lacks
`access_token` refutes it: the code destructures the body without
validation, so `localStorage.setItem('token', undefined)` stores the
string "undefined", the default header becomes "Bearer undefined", and the
returned value is `undefined` — state and storage are mutated. -/
theorem c3_malformed_refresh_response_mutates_state :
    (refreshAccessToken (axiosCall malformedRefreshBackend .v2 3) authedSt).1
      = none ∧
    (refreshAccessToken (axiosCall malformedRefreshBackend .v2 3)
        authedSt).2.prog.storage.token = some "undefined" ∧
    (refreshAccessToken (axiosCall malformedRefreshBackend .v2 3)
        authedSt).2.prog.authHeader = some "Bearer undefined" ∧
    authedSt.prog.storage.token = some "A1" ∧
    (refreshAccessToken (axiosCall malformedRefreshBackend .v2 3)
        authedSt).2.prog ≠ authedSt.prog := by
  decide

/-- Claim C7. Calling `logout()` from the already-logged-out state (user
null, both tokens null in memory and storage): the `if (token)` guard
skips the network call, and the `finally` branch's `handleLogout` rewrites
every field with the value it already has — the state, including durable
storage and the instrumentation trace (no network call, no storage read),
is returned unchanged, for any axios instance.  Totality of the embedding
reflects that no exception is thrown. -/
theorem c7_logout_idempotent_when_logged_out :
    ∀ (api : Api) (tr : Trace),
      logout api { prog := loggedOutProg, tr := tr }
        = { prog := loggedOutProg, tr := tr } := by
  intro api tr
  rfl

/-- Claim C8. With no refresh token in durable storage, `refreshAccessToken`
returns a null result immediately: the only effect is the single
`localStorage.getItem` read — no network call is issued (the conclusion
holds for an arbitrary axios callable, which is therefore never invoked)
and neither memory nor storage changes. -/
theorem c8_refresh_without_stored_token_is_null_and_offline :
    ∀ (api : Api) (st : St),
      st.prog.storage.refresh_token = none →
      refreshAccessToken api st = (none, bumpRead st) ∧
      (refreshAccessToken api st).2.tr.netCalls = st.tr.netCalls ∧
      (refreshAccessToken api st).2.prog = st.prog := by
  intro api st h
  simp [refreshAccessToken, bumpRead, truthy, h]

/-- Witness for `c8_refresh_without_stored_token_is_null_and_offline`. -/
theorem c8_witness :
    ({ prog := loggedOutProg, tr := {} } : St).prog.storage.refresh_token = none ∧
    refreshAccessToken (axiosCall raceBackend .v2 3) { prog := loggedOutProg, tr := {} }
      = (none, bumpRead { prog := loggedOutProg, tr := {} }) :=
  ⟨rfl, (c8_refresh_without_stored_token_is_null_and_offline
      (axiosCall raceBackend .v2 3) { prog := loggedOutProg, tr := {} } rfl).1⟩

/-- Claim C9, counterexample. The claim states that after startup no
operation reads the Credential Pair from durable storage (memory is
authoritative, storage a write-only mirror).  The refresh primitive
refutes it: invoked post-startup against a backend that would gladly
rotate "R1", in a state whose in-memory `refreshToken` holds "R1" while
the storage key is absent, it performs a `localStorage.getItem` and
returns null with no network call — its behaviour is decided by durable
storage, not by memory. -/
theorem c9_refresh_reads_durable_storage_post_startup :
    memOnlyRefreshSt.prog.refreshToken = some "R1" ∧
    raceBackend (refreshCfg "R1")
      = .ok { access_token := some "A2", refresh_token := some "R2" } ∧
    refreshAccessToken (axiosCall raceBackend .v2 3) memOnlyRefreshSt
      = (none, bumpRead memOnlyRefreshSt) ∧
    (bumpRead memOnlyRefreshSt).tr.storageReads = 1 := by
  decide

/-- Claim C9, amended. What does hold: the refresh primitive is
storage-authoritative for the refresh token — every invocation performs a
durable-storage read, and when the storage key is absent it returns null
without a network call even though the in-memory `refreshToken` state
still holds a (non-empty) token. -/
theorem c9_amended_refresh_is_storage_authoritative :
    ∀ (api : Api) (st : St) (r : String),
      st.prog.storage.refresh_token = none →
      st.prog.refreshToken = some r →
      refreshAccessToken api st = (none, bumpRead st) ∧
      (bumpRead st).tr.storageReads = st.tr.storageReads + 1 := by
  intro api st r h _
  refine ⟨?_, rfl⟩
  simp [refreshAccessToken, bumpRead, truthy, h]

/-- Witness for `c9_amended_refresh_is_storage_authoritative`. -/
theorem c9_amended_witness :
    memOnlyRefreshSt.prog.storage.refresh_token = none ∧
    memOnlyRefreshSt.prog.refreshToken = some "R1" ∧
    refreshAccessToken (axiosCall deadRefreshBackend .v2 3) memOnlyRefreshSt
      = (none, bumpRead memOnlyRefreshSt) :=
  ⟨rfl, rfl,
    (c9_amended_refresh_is_storage_authoritative
      (axiosCall deadRefreshBackend .v2 3) memOnlyRefreshSt "R1" rfl rfl).1⟩

theorem includesSub_login_self : includesSub loginUrl loginUrl = true := by decide

/-- Claim C5. A failing `login(credentials)` call: the interceptor never
acts on the login endpoint (its guard excludes URLs containing
`/auth/login`), so any rejection propagates to `login`'s catch branch,
which returns a failure result carrying
`error.response?.data?.error || 'Login failed'` — the backend's message
when the payload holds a truthy one, the fixed fallback otherwise — and
the program state (user, both tokens, header, durable storage) is exactly
what it was. -/
theorem c5_login_failure_reports_message_without_mutation :
    ∀ (B : Backend) (fuel : Nat) (creds : String) (st : St)
      (s : Option Nat) (m : Option String),
      B (loginCfg creds st.prog.authHeader) = .err s m →
      (login (axiosCall B .v2 (fuel + 1)) creds st).1
        = { success := false, user := none,
            error := some (if truthy m then jsString m else "Login failed") } ∧
      (login (axiosCall B .v2 (fuel + 1)) creds st).2.prog = st.prog := by
  intro B fuel creds st s m hB
  simp only [login, axiosCall, interceptErr, hB, loginCfg,
    includesSub_login_self]
  simp [loginCfg] at hB
  simp [hB, countSend]

/-- Witness for `c5_login_failure_reports_message_without_mutation`. -/
theorem c5_witness :
    deadRefreshBackend (loginCfg "creds" authedSt.prog.authHeader)
      = .err (some 401) none ∧
    (login (axiosCall deadRefreshBackend .v2 3) "creds" authedSt).1
      = { success := false, user := none, error := some "Login failed" } :=
  ⟨by decide,
    by
      have h := (c5_login_failure_reports_message_without_mutation
        deadRefreshBackend 2 "creds" authedSt (some 401) none (by decide)).1
      simpa [truthy] using h⟩

/-- Claim C4. `initialize()` from a stored state with an expired (rejected)
access token and a valid refresh token: the initial profile GET is
rejected with 401, the response interceptor performs the single rescue —
one refresh call, then the one retried profile GET marked `_retry` and
carrying the new bearer token — so `checkAuth`'s own await resolves with
the retried response.  The run ends with `user` set from that response,
`loading = false`, the rotated Credential Pair written to durable storage,
and the trace showing exactly one refresh call and exactly one retried
profile call (two profile GETs in total: the initial one and its single
retry). -/
theorem c4_rescue_refreshes_once_and_retries_once :
    ∀ (B : Backend) (f : Nat) (a1 r1 a2 r2 : String) (u : User)
      (tr : Trace) (m1 : Option String),
      a1.isEmpty = false → r1.isEmpty = false →
      a2.isEmpty = false → r2.isEmpty = false →
      B (profileCfg (some ("Bearer " ++ a1))) = .err (some 401) m1 →
      B (refreshCfg r1)
        = .ok { access_token := some a2, refresh_token := some r2 } →
      B { method := "get", url := profileUrl, retry := true,
          auth := some ("Bearer " ++ a2) }
        = .ok { user := some u } →
      (let api := axiosCall B .v2 (f + 1 + 1)
       let res := checkAuth api (refreshAccessToken api)
         { prog := initialProg { token := some a1, refresh_token := some r1 }
           tr := tr }
       res.prog.user = some u ∧
       res.prog.loading = false ∧
       res.prog.storage = { token := some a2, refresh_token := some r2 } ∧
       res.prog.token = some a2 ∧
       res.tr.refreshCalls = tr.refreshCalls + 1 ∧
       res.tr.profileGets = tr.profileGets + 2 ∧
       res.tr.retriedCalls = tr.retriedCalls + 1) := by
  intro B f a1 r1 a2 r2 u tr m1 ha1 hr1 ha2 hr2 hB1 hB2 hB3
  simp only [checkAuth, initialProg, bumpRead, truthy, jsString, profileCfg,
    refreshCfg, axiosCall, interceptErr, refreshAccessToken, countSend,
    setLoading, setUser, profileUrl, refreshUrl, loginUrl] at hB1 hB2 hB3 ⊢
  simp [ha1, hr1, ha2, hr2, hB1, hB2, hB3, includesSub, charsInclude,
    charsLeadWith, profileUrl, refreshUrl, loginUrl, countSend, truthy,
    jsString, setLoading, setUser]

/-- Backend for the startup-rescue scenario: profile GETs carrying "A1"
are rejected with 401, the refresh endpoint rotates "R1" to "A2"/"R2",
and profile GETs carrying "A2" succeed. -/
def rescueBackend : Backend := fun cfg =>
  if cfg.url = refreshUrl then
    if cfg.auth = some "Bearer R1" then
      .ok { access_token := some "A2", refresh_token := some "R2" }
    else .err (some 401) none
  else if cfg.url = profileUrl && cfg.auth = some "Bearer A2" then
    .ok { user := some { id := 7 } }
  else .err (some 401) none

/-- Witness for `c4_rescue_refreshes_once_and_retries_once`. -/
theorem c4_witness :
    rescueBackend (profileCfg (some ("Bearer " ++ "A1"))) = .err (some 401) none ∧
    rescueBackend (refreshCfg "R1")
      = .ok { access_token := some "A2", refresh_token := some "R2" } ∧
    (let api := axiosCall rescueBackend .v2 (3 + 1 + 1)
     let res := checkAuth api (refreshAccessToken api)
       { prog := initialProg { token := some "A1", refresh_token := some "R1" }
         tr := {} }
     res.prog.user = some { id := 7 } ∧
     res.prog.loading = false ∧
     res.prog.storage = { token := some "A2", refresh_token := some "R2" } ∧
     res.prog.token = some "A2" ∧
     res.tr.refreshCalls = 0 + 1 ∧
     res.tr.profileGets = 0 + 2 ∧
     res.tr.retriedCalls = 0 + 1) :=
  ⟨by decide, by decide,
    c4_rescue_refreshes_once_and_retries_once rescueBackend 3 "A1" "R1" "A2" "R2"
      { id := 7 } {} none rfl rfl rfl rfl (by decide) (by decide) (by decide)⟩

/-- Helper: if the axios callable leaves the program state unchanged and
never fulfils on refresh-endpoint configs, then `refreshAccessToken`
returns null and leaves the program state unchanged. -/
theorem refresh_no_mutation (api : Api)
    (hapi : ∀ rt st, (api (refreshCfg rt) st).2.prog = st.prog ∧
        ∀ d, (api (refreshCfg rt) st).1 ≠ some (.ok d)) (st : St) :
    (refreshAccessToken api st).1 = none ∧
    (refreshAccessToken api st).2.prog = st.prog := by
  have hb : (bumpRead st).prog = st.prog := rfl
  simp only [refreshAccessToken]
  generalize hg : bumpRead st = st1
  rw [hg] at hb
  rw [← hb]
  by_cases ht : truthy st1.prog.storage.refresh_token
  · obtain ⟨h1, h2⟩ := hapi (jsString st1.prog.storage.refresh_token) st1
    rcases hax : api (refreshCfg (jsString st1.prog.storage.refresh_token)) st1
      with ⟨r1, st2⟩
    rw [hax] at h1 h2
    simp only at h1 h2
    cases r1 with
    | none => simp [ht, hax, h1]
    | some r =>
      cases r with
      | ok d => exact absurd rfl (h2 d)
      | err s m => simp [ht, hax, h1]
  · simp [ht]

/-- Helper: against a backend that rejects every request to the refresh
endpoint, an axios call (variant 2) to the refresh endpoint leaves the
program state unchanged and never fulfils, at every fuel: the
(in the source, unbounded) nested-refresh recursion only accumulates
rejections. -/
theorem axiosCall_refresh_rejected (B : Backend)
    (hB : ∀ cfg, cfg.url = refreshUrl → (B cfg).isErr = true) :
    ∀ (fuel : Nat) (cfg : Config) (st : St), cfg.url = refreshUrl →
      (axiosCall B .v2 fuel cfg st).2.prog = st.prog ∧
      ∀ d, (axiosCall B .v2 fuel cfg st).1 ≠ some (.ok d) := by
  intro fuel
  induction fuel with
  | zero => intro cfg st _; exact ⟨rfl, by simp [axiosCall]⟩
  | succ n ih =>
    intro cfg st hurl
    have herr := hB cfg hurl
    cases hBc : B cfg with
    | ok d => rw [hBc] at herr; simp [Resp.isErr] at herr
    | err s m =>
      have href := refresh_no_mutation (fun c s => axiosCall B .v2 n c s)
        (fun rt st => ih (refreshCfg rt) st rfl)
      simp only [axiosCall, hBc, interceptErr]
      by_cases hr : cfg.retry
      · simp [hr]
      · simp only [hr, Bool.false_eq_true, if_false]
        by_cases hc : (s == some 401 && !includesSub cfg.url loginUrl) = true
        · simp only [hc, if_true]
          obtain ⟨hres1, hres2⟩ :=
            href { st with tr := countSend cfg st.tr }
          rcases hrx : refreshAccessToken (fun c s => axiosCall B .v2 n c s)
              { st with tr := countSend cfg st.tr } with ⟨tok, st2⟩
          rw [hrx] at hres1 hres2
          simp only at hres1 hres2
          subst hres1
          simp [hrx, hres2]
        · simp [hc]

/-- Claim C3, amended. What does hold of `refreshAccessToken`: whenever the
refresh request itself is rejected — network error or rejected refresh
credential, at any depth of the interceptor's nested handling — the
operation returns a null result and performs no mutation of the
Credential Pair in memory or durable storage.  (Per the counterexample, a
*fulfilled* 2xx response with a malformed body is not treated as a
failure: the undefined access token is written through to state and
storage.) -/
theorem c3_amended_rejected_refresh_is_null_and_pure :
    ∀ (B : Backend) (fuel : Nat) (st : St),
      (∀ cfg, cfg.url = refreshUrl → (B cfg).isErr = true) →
      (refreshAccessToken (axiosCall B .v2 fuel) st).1 = none ∧
      (refreshAccessToken (axiosCall B .v2 fuel) st).2.prog = st.prog := by
  intro B fuel st hB
  exact refresh_no_mutation (axiosCall B .v2 fuel)
    (fun rt st => axiosCall_refresh_rejected B hB fuel (refreshCfg rt) st rfl) st

/-- Witness for `c3_amended_rejected_refresh_is_null_and_pure`. -/
theorem c3_amended_witness :
    (refreshAccessToken (axiosCall deadRefreshBackend .v2 4) authedSt).1 = none ∧
    (refreshAccessToken (axiosCall deadRefreshBackend .v2 4) authedSt).2.prog
      = authedSt.prog :=
  c3_amended_rejected_refresh_is_null_and_pure deadRefreshBackend 4 authedSt
    (by intro cfg h; simp [deadRefreshBackend, h, Resp.isErr])

/-- Helper: `markAsRead` preserves non-negativity of the unread counter
(the decrement is clamped by `Math.max(0, prev - 1)`). -/
theorem markAsRead_nonneg (b : Bool) (i : Nat) (s : NotifState)
    (h : 0 ≤ s.unreadCount) : 0 ≤ (markAsRead b i s).unreadCount := by
  cases b with
  | false => simpa [markAsRead] using h
  | true => simp only [markAsRead, if_true]; exact le_max_left 0 _

/-- Helper: folding `markAsRead` over any id list preserves
non-negativity. -/
theorem foldl_markAsRead_nonneg (sc : Nat → Bool) :
    ∀ (ids : List Nat) (acc : NotifState), 0 ≤ acc.unreadCount →
      0 ≤ (ids.foldl (fun a i => markAsRead (sc i) i a) acc).unreadCount := by
  intro ids
  induction ids with
  | nil => intro acc h; simpa using h
  | cons i rest ih => intro acc h; exact ih _ (markAsRead_nonneg _ _ _ h)

/-- Claim C10. The notification unread counter never goes negative: from any
state with a non-negative counter, `fetchNotifications` (it recounts the
unread entries), receiving a `new_notification` (increment), `markAsRead`
on any id and any request outcome (decrement clamped at zero), and
`markAllAsRead` (zero the counter, then one clamped `markAsRead` per
previously-unread id) all leave `unreadCount ≥ 0`; the final conjunct
exhibits the clamp: `markAsRead` from a zero counter stays at zero. -/
theorem c10_unread_count_never_negative :
    ∀ (s : NotifState) (resp : Option (List Notif)) (n : Notif) (b : Bool)
      (i : Nat) (sc : Nat → Bool),
      0 ≤ s.unreadCount →
      0 ≤ (fetchNotifications resp s).unreadCount ∧
      0 ≤ (onNewNotification n s).unreadCount ∧
      0 ≤ (markAsRead b i s).unreadCount ∧
      0 ≤ (markAllAsRead sc s).unreadCount ∧
      (markAsRead true i { s with unreadCount := 0 }).unreadCount = 0 := by
  intro s resp n b i sc h
  refine ⟨?_, ?_, markAsRead_nonneg b i s h, ?_, ?_⟩
  · cases resp with
    | none => simpa [fetchNotifications] using h
    | some l => simp [fetchNotifications]
  · simp only [onNewNotification]
    omega
  · exact foldl_markAsRead_nonneg sc _ _ le_rfl
  · simp [markAsRead]

/-- Witness for `c10_unread_count_never_negative`. -/
theorem c10_witness :
    0 ≤ (NotifState.mk [{ id := 1, is_read := false }] 1).unreadCount ∧
    (0 ≤ (fetchNotifications none
            (NotifState.mk [{ id := 1, is_read := false }] 1)).unreadCount ∧
     0 ≤ (onNewNotification { id := 2, is_read := false }
            (NotifState.mk [{ id := 1, is_read := false }] 1)).unreadCount ∧
     0 ≤ (markAsRead true 1
            (NotifState.mk [{ id := 1, is_read := false }] 1)).unreadCount ∧
     0 ≤ (markAllAsRead (fun _ => true)
            (NotifState.mk [{ id := 1, is_read := false }] 1)).unreadCount ∧
     (markAsRead true 1
        { NotifState.mk [{ id := 1, is_read := false }] 1 with
          unreadCount := 0 }).unreadCount = 0) :=
  ⟨by decide,
    c10_unread_count_never_negative
      (NotifState.mk [{ id := 1, is_read := false }] 1) none
      { id := 2, is_read := false } true 1 (fun _ => true) (by decide)⟩

/-- Helper: a truthy nullable string is a present, non-empty string. -/
theorem truthy_some (x : Option String) (h : truthy x = true) :
    ∃ t, x = some t ∧ t.isEmpty = false := by
  cases x with
  | none => simp [truthy] at h
  | some s => exact ⟨s, rfl, by simpa [truthy] using h⟩

/-- The backend contract fixed by the spec (§6, external collaborator):
profile requests carrying no Authorization header are rejected, and
fulfilled refresh and login responses always carry a truthy
`access_token`. -/
def BackendContract (B : Backend) : Prop :=
  (∀ cfg, cfg.url = profileUrl → cfg.auth = none → (B cfg).isErr = true) ∧
  (∀ cfg d, cfg.url = refreshUrl → B cfg = .ok d → truthy d.access_token = true) ∧
  (∀ cfg d, cfg.url = loginUrl → B cfg = .ok d → truthy d.access_token = true)

/-- The session invariant of claim C6 — a null access token forces a null
user — strengthened with the auxiliary clause that a null token also
leaves the default bearer header detached (this is what makes the
invariant inductive across the operations). -/
def authInv (p : ProgState) : Prop :=
  p.token = none → p.user = none ∧ p.authHeader = none

/-- Postcondition of one intercepted axios call (variant 2), strong enough
to carry `authInv`: the user is untouched; the token/header pair is either
untouched or set to a present non-empty token together with a present
header; every fulfilled response originates from the backend at a config
with the same URL; and a fulfilled response to an unauthenticated profile
request leaves a non-null token (it can only have come through the
refresh-then-retry path). -/
def axiosPost (B : Backend) (cfg : Config) (st : St) (r : Option Resp × St) : Prop :=
  r.2.prog.user = st.prog.user ∧
  ((r.2.prog.token = st.prog.token ∧ r.2.prog.authHeader = st.prog.authHeader) ∨
    (∃ t, t.isEmpty = false ∧ r.2.prog.token = some t ∧
      ∃ h, r.2.prog.authHeader = some h)) ∧
  (∀ d, r.1 = some (.ok d) → ∃ cfg2, cfg2.url = cfg.url ∧ B cfg2 = .ok d) ∧
  (cfg.url = profileUrl → cfg.auth = none → ∀ d, r.1 = some (.ok d) →
    r.2.prog.token ≠ none)

/-- Helper: under the refresh-response contract, `refreshAccessToken`
keeps the user untouched, either leaves the token/header pair untouched or
sets it to a present non-empty token with a present header, and when it
returns a token that token is non-empty and is exactly the final token
state, with the header present. -/
theorem refreshAccessToken_post (B : Backend) (api : Api)
    (hok : ∀ cfg d, cfg.url = refreshUrl → B cfg = .ok d →
      truthy d.access_token = true)
    (hapi : ∀ cfg st, axiosPost B cfg st (api cfg st)) (st : St) :
    (refreshAccessToken api st).2.prog.user = st.prog.user ∧
    (((refreshAccessToken api st).2.prog.token = st.prog.token ∧
        (refreshAccessToken api st).2.prog.authHeader = st.prog.authHeader) ∨
      (∃ t, t.isEmpty = false ∧
        (refreshAccessToken api st).2.prog.token = some t ∧
        ∃ h, (refreshAccessToken api st).2.prog.authHeader = some h)) ∧
    (∀ t, (refreshAccessToken api st).1 = some t →
      (refreshAccessToken api st).2.prog.token = some t ∧ t.isEmpty = false ∧
      ∃ h, (refreshAccessToken api st).2.prog.authHeader = some h) := by
  have hb : (bumpRead st).prog = st.prog := rfl
  simp only [refreshAccessToken]
  generalize hg : bumpRead st = st1
  rw [hg] at hb
  rw [← hb]
  by_cases ht : truthy st1.prog.storage.refresh_token
  · obtain ⟨hu, hth, hoko, _⟩ :=
      hapi (refreshCfg (jsString st1.prog.storage.refresh_token)) st1
    rcases hax : api (refreshCfg (jsString st1.prog.storage.refresh_token)) st1
      with ⟨r1, st2⟩
    rw [hax] at hu hth hoko
    simp only at hu hth hoko
    cases r1 with
    | none => simp [ht, hax, hu, hth]
    | some r =>
      cases r with
      | err s m => simp [ht, hax, hu, hth]
      | ok d =>
        obtain ⟨cfg2, hurl2, hBok⟩ := hoko d rfl
        have htr : truthy d.access_token = true :=
          hok cfg2 d (by simpa [refreshCfg] using hurl2) hBok
        obtain ⟨t, hdt, hte⟩ := truthy_some _ htr
        cases hrot : truthy d.refresh_token <;>
          (refine ⟨?_, Or.inr ⟨t, hte, ?_, ?_⟩, ?_⟩ <;>
            simp [ht, hax, hrot, hdt, hu, hte, jsString])
  · simp [ht]

/-- Helper: under the backend contract, every variant-2 intercepted axios
call satisfies `axiosPost`, at every fuel. -/
theorem axiosCall_post (B : Backend) (hc : BackendContract B) :
    ∀ (fuel : Nat) (cfg : Config) (st : St),
      axiosPost B cfg st (axiosCall B .v2 fuel cfg st) := by
  obtain ⟨hprof, hrefresh, hlogin⟩ := hc
  intro fuel
  induction fuel with
  | zero =>
    intro cfg st
    exact ⟨rfl, Or.inl ⟨rfl, rfl⟩, by simp [axiosCall], by simp [axiosCall]⟩
  | succ n ih =>
    intro cfg st
    cases hBc : B cfg with
    | ok d =>
      refine ⟨?_, ?_, ?_, ?_⟩
      · simp [axiosCall, hBc]
      · exact Or.inl (by simp [axiosCall, hBc])
      · intro d2 h2
        simp only [axiosCall, hBc] at h2
        simp only [Option.some.injEq, Resp.ok.injEq] at h2
        exact ⟨cfg, rfl, h2 ▸ hBc⟩
      · intro hurl hauth d2 _
        have := hprof cfg hurl hauth
        rw [hBc] at this
        simp [Resp.isErr] at this
    | err s m =>
      have hapi : ∀ c st2, axiosPost B c st2 (axiosCall B .v2 n c st2) :=
        fun c st2 => ih c st2
      have hrp := refreshAccessToken_post B (fun c s => axiosCall B .v2 n c s)
        hrefresh hapi { st with tr := countSend cfg st.tr }
      simp only [axiosCall, hBc, interceptErr]
      by_cases hr : cfg.retry
      · simp only [hr, if_true]
        exact ⟨rfl, Or.inl ⟨rfl, rfl⟩, by simp, by simp⟩
      · simp only [hr, Bool.false_eq_true, if_false]
        by_cases hcnd : (s == some 401 && !includesSub cfg.url loginUrl) = true
        · simp only [hcnd, if_true]
          rcases hrx : refreshAccessToken (fun c s => axiosCall B .v2 n c s)
              { st with tr := countSend cfg st.tr } with ⟨tok, st2⟩
          rw [hrx] at hrp
          obtain ⟨hu2, hth2, hres2⟩ := hrp
          simp only at hu2 hth2 hres2
          cases tok with
          | none =>
            simp only
            exact ⟨hu2, hth2, by simp, by simp⟩
          | some t =>
            obtain ⟨hst2tok, hte, h2hdr⟩ := hres2 t rfl
            have hpost2 :=
              ih { cfg with retry := true, auth := some ("Bearer " ++ t) } st2
            obtain ⟨hu3, hth3, hoko3, _⟩ := hpost2
            simp only
            refine ⟨hu3.trans hu2, ?_, ?_, ?_⟩
            · cases hth3 with
              | inl h3 =>
                obtain ⟨h2, hh⟩ := h2hdr
                exact Or.inr ⟨t, hte, h3.1.trans hst2tok, h2, h3.2.trans hh⟩
              | inr h3 => exact Or.inr h3
            · intro d2 h2
              obtain ⟨cfg2, hurl2, hBok2⟩ := hoko3 d2 h2
              exact ⟨cfg2, hurl2, hBok2⟩
            · intro _ _ d2 _
              cases hth3 with
              | inl h3 => rw [h3.1, hst2tok]; simp
              | inr h3 => obtain ⟨t2, _, h3t, _⟩ := h3; rw [h3t]; simp
        · simp only [hcnd, Bool.false_eq_true, if_false]
          exact ⟨rfl, Or.inl ⟨rfl, rfl⟩, by simp, by simp⟩

/-- Helper: the invariant is vacuous when the token is present. -/
theorem authInv_token_ne (p : ProgState) (h : p.token ≠ none) : authInv p :=
  fun h0 => absurd h0 h

/-- Helper: `handleLogout` establishes the invariant outright. -/
theorem authInv_handleLogout (st : St) : authInv (handleLogout st).prog :=
  fun _ => ⟨rfl, rfl⟩

/-- Helper: the invariant transfers along `axiosPost`. -/
theorem authInv_of_post (B : Backend) (cfg : Config) (st : St)
    (r : Option Resp × St) (hpost : axiosPost B cfg st r)
    (hinv : authInv st.prog) : authInv r.2.prog := by
  obtain ⟨hu, hth, _, _⟩ := hpost
  intro h0
  cases hth with
  | inl h =>
    obtain ⟨hu0, hh0⟩ := hinv (h.1.symm.trans h0)
    exact ⟨hu.trans hu0, h.2.trans hh0⟩
  | inr h =>
    obtain ⟨t, _, htk, _⟩ := h
    rw [htk] at h0
    cases h0

/-- Helper: `login` preserves the invariant. -/
theorem authInv_login (B : Backend) (hc : BackendContract B) (fuel : Nat)
    (creds : String) (st : St) (hinv : authInv st.prog) :
    authInv ((login (axiosCall B .v2 fuel) creds st).2).prog := by
  have hpost := axiosCall_post B hc fuel (loginCfg creds st.prog.authHeader) st
  rcases hax : axiosCall B .v2 fuel (loginCfg creds st.prog.authHeader) st
    with ⟨r1, st1⟩
  rw [hax] at hpost
  simp only [login, hax]
  cases r1 with
  | none => exact authInv_of_post _ _ _ _ hpost hinv
  | some r =>
    cases r with
    | err s m => exact authInv_of_post _ _ _ _ hpost hinv
    | ok d =>
      obtain ⟨hu, hth, hoko, _⟩ := hpost
      obtain ⟨cfg2, hurl2, hBok⟩ := hoko d rfl
      have htr := hc.2.2 cfg2 d (by simpa [loginCfg] using hurl2) hBok
      obtain ⟨t, hdt, hte⟩ := truthy_some _ htr
      intro h0
      simp [hdt, truthy, hte, setDefaultAuth] at h0

/-- Helper: `logout` always re-establishes the invariant (it ends in
`handleLogout` on every path), for any axios instance. -/
theorem authInv_logout (api : Api) (st : St) : authInv (logout api st).prog := by
  by_cases ht : truthy st.prog.token <;>
    simp only [logout, ht, if_true, Bool.false_eq_true, if_false] <;>
    exact authInv_handleLogout _

/-- Helper: `refreshAccessToken` preserves the invariant. -/
theorem authInv_refresh (B : Backend) (hc : BackendContract B) (fuel : Nat)
    (st : St) (hinv : authInv st.prog) :
    authInv ((refreshAccessToken (axiosCall B .v2 fuel) st).2).prog := by
  have hrp := refreshAccessToken_post B (axiosCall B .v2 fuel) hc.2.1
    (fun c s => axiosCall_post B hc fuel c s) st
  obtain ⟨hu, hth, _⟩ := hrp
  intro h0
  cases hth with
  | inl h =>
    obtain ⟨hu0, hh0⟩ := hinv (h.1.symm.trans h0)
    exact ⟨hu.trans hu0, h.2.trans hh0⟩
  | inr h =>
    obtain ⟨t, _, htk, _⟩ := h
    rw [htk] at h0
    cases h0

/-- Helper: `updateProfile` preserves the invariant: from a token-null
state the header is detached, so a fulfilled response can only have come
through the refresh path, which re-establishes a token before the user is
set. -/
theorem authInv_updateProfile (B : Backend) (hc : BackendContract B)
    (fuel : Nat) (d : String) (st : St) (hinv : authInv st.prog) :
    authInv ((updateProfile (axiosCall B .v2 fuel) d st).2).prog := by
  have hpost := axiosCall_post B hc fuel
    { method := "put", url := profileUrl, retry := false,
      auth := st.prog.authHeader, body := some d } st
  rcases hax : axiosCall B .v2 fuel
      { method := "put", url := profileUrl, retry := false,
        auth := st.prog.authHeader, body := some d } st with ⟨r1, st1⟩
  rw [hax] at hpost
  simp only [updateProfile, hax]
  cases r1 with
  | none => exact authInv_of_post _ _ _ _ hpost hinv
  | some r =>
    cases r with
    | err s m => exact authInv_of_post _ _ _ _ hpost hinv
    | ok rd =>
      obtain ⟨hu, hth, hoko, hD⟩ := hpost
      intro h0
      simp only [setUser] at h0
      by_cases hst : st.prog.token = none
      · obtain ⟨hu0, hh0⟩ := hinv hst
        exact absurd h0 (hD rfl hh0 rd rfl)
      · cases hth with
        | inl h => exact absurd (h.1.symm.trans h0) hst
        | inr h =>
          obtain ⟨t, _, htk, _⟩ := h
          rw [htk] at h0
          cases h0

/-- Helper: `checkAuth` (`initialize()`) from any mounted stored state
establishes the invariant. -/
theorem authInv_checkAuth (B : Backend) (hc : BackendContract B) (fuel : Nat)
    (sto : Storage) (tr : Trace) :
    authInv ((checkAuth (axiosCall B .v2 fuel)
      (refreshAccessToken (axiosCall B .v2 fuel))
      { prog := initialProg sto, tr := tr }).prog) := by
  have hb : (bumpRead (bumpRead ({ prog := initialProg sto, tr := tr } : St))).prog
      = initialProg sto := rfl
  simp only [checkAuth]
  generalize hg : bumpRead (bumpRead ({ prog := initialProg sto, tr := tr } : St)) = st1
  rw [hg] at hb
  by_cases hguard : truthy st1.prog.storage.token
  · simp only [hguard, Bool.not_true, Bool.false_eq_true, if_false]
    have hstok : st1.prog.storage.token = sto.token := by
      rw [hb]
      exact rfl
    obtain ⟨t0, ht0, hte0⟩ := truthy_some _ (hstok ▸ hguard)
    have htok1 : st1.prog.token = some t0 := by
      rw [hb]
      simpa [initialProg] using ht0
    have hpost := axiosCall_post B hc fuel (profileCfg st1.prog.authHeader) st1
    rcases hax : axiosCall B .v2 fuel (profileCfg st1.prog.authHeader) st1
      with ⟨r1, st2⟩
    rw [hax] at hpost
    obtain ⟨hu2, hth2, _, _⟩ := hpost
    simp only at hu2 hth2
    have htok2 : st2.prog.token ≠ none := by
      cases hth2 with
      | inl h => rw [h.1, htok1]; simp
      | inr h => obtain ⟨t, _, htk, _⟩ := h; rw [htk]; simp
    cases r1 with
    | none => exact fun h0 => absurd h0 htok2
    | some r =>
      cases r with
      | ok d =>
        exact fun h0 => absurd h0 htok2
      | err s m =>
        simp only
        by_cases hrs : (s == some 401 && truthy st1.prog.storage.refresh_token) = true
        · simp only [hrs, if_true]
          have hrp := refreshAccessToken_post B (axiosCall B .v2 fuel) hc.2.1
            (fun c s => axiosCall_post B hc fuel c s) st2
          rcases hrx : refreshAccessToken (axiosCall B .v2 fuel) st2 with ⟨tok, st3⟩
          rw [hrx] at hrp
          obtain ⟨_, _, hres3⟩ := hrp
          simp only at hres3
          cases tok with
          | none => exact fun _ => ⟨rfl, rfl⟩
          | some t =>
            simp only
            obtain ⟨htok3, hte3, _⟩ := hres3 t rfl
            have hpost4 := axiosCall_post B hc fuel
              { method := "get", url := profileUrl, retry := false,
                auth := some ("Bearer " ++ t) } st3
            rcases hax4 : axiosCall B .v2 fuel
                { method := "get", url := profileUrl, retry := false,
                  auth := some ("Bearer " ++ t) } st3 with ⟨r4, st4⟩
            rw [hax4] at hpost4
            obtain ⟨_, hth4, _, _⟩ := hpost4
            simp only at hth4
            have htok4 : st4.prog.token ≠ none := by
              cases hth4 with
              | inl h => rw [h.1, htok3]; simp
              | inr h => obtain ⟨t2, _, htk, _⟩ := h; rw [htk]; simp
            cases r4 with
            | none => exact fun h0 => absurd h0 htok4
            | some r =>
              cases r with
              | ok d4 =>
                exact fun h0 => absurd h0 htok4
              | err s4 m4 => exact fun _ => ⟨rfl, rfl⟩
        · simp only [hrs, Bool.false_eq_true, if_false]
          exact fun _ => ⟨rfl, rfl⟩
  · have hg0 : truthy st1.prog.storage.token = false := by
      simpa using hguard
    simp only [hg0, Bool.not_false, if_true]
    intro h0
    have h1 : st1.prog.token = none := h0
    rw [hb] at h1
    have h2 : sto.token = none := h1
    constructor
    · show st1.prog.user = none
      rw [hb]
      rfl
    · show st1.prog.authHeader = none
      rw [hb]
      simp [initialProg, h2, truthy]

/-- Claim C6. In every reachable session state, a null access token forces a
null user.  Formally: under the spec's fixed backend contract (§6) the
invariant `authInv` — null token implies null user, with the auxiliary
clause that a null token also leaves the default bearer header detached —
holds of the freshly mounted state and is preserved or (re)established by
every Session Manager operation: `login`, `logout`,
`refreshAccessToken`, `checkAuth` (`initialize()`), `updateProfile` and
Forced Logout (`handleLogout`). -/
theorem c6_null_token_forces_null_user :
    ∀ (B : Backend), BackendContract B →
      (∀ (sto : Storage), authInv (initialProg sto)) ∧
      (∀ (fuel : Nat) (creds : String) (st : St), authInv st.prog →
        authInv ((login (axiosCall B .v2 fuel) creds st).2).prog) ∧
      (∀ (api : Api) (st : St), authInv (logout api st).prog) ∧
      (∀ (fuel : Nat) (st : St), authInv st.prog →
        authInv ((refreshAccessToken (axiosCall B .v2 fuel) st).2).prog) ∧
      (∀ (fuel : Nat) (sto : Storage) (tr : Trace),
        authInv ((checkAuth (axiosCall B .v2 fuel)
          (refreshAccessToken (axiosCall B .v2 fuel))
          { prog := initialProg sto, tr := tr }).prog)) ∧
      (∀ (fuel : Nat) (d : String) (st : St), authInv st.prog →
        authInv ((updateProfile (axiosCall B .v2 fuel) d st).2).prog) ∧
      (∀ (st : St), authInv (handleLogout st).prog) := by
  intro B hc
  refine ⟨?_, fun fuel creds st h => authInv_login B hc fuel creds st h,
    authInv_logout,
    fun fuel st h => authInv_refresh B hc fuel st h,
    fun fuel sto tr => authInv_checkAuth B hc fuel sto tr,
    fun fuel d st h => authInv_updateProfile B hc fuel d st h,
    authInv_handleLogout⟩
  intro sto h0
  simp only [initialProg] at h0 ⊢
  simp [h0, truthy]

/-- The contract instance used by the invariant witness: a backend that
rejects everything satisfies `BackendContract` (the access-token clauses
are vacuous). -/
theorem deadRefreshBackend_contract : BackendContract deadRefreshBackend :=
  ⟨fun cfg _ _ => by
      by_cases h : cfg.url = refreshUrl <;>
        simp [deadRefreshBackend, h, Resp.isErr],
   fun cfg d _ hok => by
      by_cases h : cfg.url = refreshUrl <;>
        simp [deadRefreshBackend, h] at hok,
   fun cfg d _ hok => by
      by_cases h : cfg.url = refreshUrl <;>
        simp [deadRefreshBackend, h] at hok⟩

/-- Witness for `c6_null_token_forces_null_user`. -/
theorem c6_witness :
    authInv (logout (axiosCall deadRefreshBackend .v2 2) authedSt).prog ∧
    authInv ((login (axiosCall deadRefreshBackend .v2 2) "creds"
      { prog := loggedOutProg, tr := {} }).2).prog :=
  ⟨(c6_null_token_forces_null_user deadRefreshBackend
      deadRefreshBackend_contract).2.2.1 (axiosCall deadRefreshBackend .v2 2)
      authedSt,
   (c6_null_token_forces_null_user deadRefreshBackend
      deadRefreshBackend_contract).2.1 2 "creds"
      { prog := loggedOutProg, tr := {} } (fun _ => ⟨rfl, rfl⟩)⟩

end HRMS
